import Mathlib

/-!
Verification of the filesystem ownership / ACL management functions of
`plugins/platform/windows/WindowsFilesystemFunctions.cpp` (Veyon).

The Windows security subsystem is modelled as an explicit state
(`WinState`): a table of files with their security descriptors (owner SID
and optional DACL), the account tables used by `LookupAccountName` /
`LookupAccountSid`, the set of currently enabled privileges, and an
allocation counter for platform-allocated buffers.  Each API call and each
repository function returns its result together with the successor state
and a trace of observable events (buffer allocations and frees, privilege
enable/disable calls, diagnostic log lines, and descriptor-write calls).
-/

namespace Veyon

/-- Windows error code `ERROR_SUCCESS`. -/
def ERROR_SUCCESS : Nat := 0

/-- Windows error code `ERROR_FILE_NOT_FOUND`. -/
def ERROR_FILE_NOT_FOUND : Nat := 2

/-- Windows error code `ERROR_ACCESS_DENIED`. -/
def ERROR_ACCESS_DENIED : Nat := 5

/-- Windows error code `ERROR_INVALID_PARAMETER`. -/
def ERROR_INVALID_PARAMETER : Nat := 87

/-- Windows generic access right `GENERIC_READ`. -/
def GENERIC_READ : Nat := 0x80000000

/-- Windows generic access right `GENERIC_WRITE`. -/
def GENERIC_WRITE : Nat := 0x40000000

/-- Windows generic access right `GENERIC_EXECUTE`. -/
def GENERIC_EXECUTE : Nat := 0x20000000

/-- Windows generic access right `GENERIC_ALL` (full control). -/
def GENERIC_ALL : Nat := 0x10000000

/-- Windows `ACCESS_MODE` value `SET_ACCESS` (grant). -/
def SET_ACCESS : Nat := 2

/-- Windows inheritance flag `NO_INHERITANCE`. -/
def NO_INHERITANCE : Nat := 0

/-- Windows `TRUSTEE_FORM` value `TRUSTEE_IS_SID`. -/
def TRUSTEE_IS_SID : Nat := 0

/-- Windows `TRUSTEE_TYPE` value `TRUSTEE_IS_GROUP`. -/
def TRUSTEE_IS_GROUP : Nat := 2

/-- Qt permission flag `QFile::ReadGroup`. -/
def QFileReadGroup : Nat := 0x0040

/-- Qt permission flag `QFile::WriteGroup`. -/
def QFileWriteGroup : Nat := 0x0020

/-- Qt permission flag `QFile::ExeGroup`. -/
def QFileExeGroup : Nat := 0x0010

/-- The take-ownership privilege name `SE_TAKE_OWNERSHIP_NAME`. -/
def SE_TAKE_OWNERSHIP_NAME : String := "SeTakeOwnershipPrivilege"

/-- `SECURITY_NT_AUTHORITY` identifier authority value. -/
def SECURITY_NT_AUTHORITY : Nat := 5

/-- `SECURITY_BUILTIN_DOMAIN_RID`. -/
def SECURITY_BUILTIN_DOMAIN_RID : Nat := 32

/-- `DOMAIN_ALIAS_RID_ADMINS`. -/
def DOMAIN_ALIAS_RID_ADMINS : Nat := 544

/-- `SECURITY_INFORMATION` flag selecting the owner part of a descriptor. -/
def OWNER_SECURITY_INFORMATION : Nat := 1

/-- `SECURITY_INFORMATION` flag selecting the DACL part of a descriptor. -/
def DACL_SECURITY_INFORMATION : Nat := 4

/-- A SID, modelled as identifier authority followed by subauthorities. -/
abbrev Sid := List Nat

/-- The well-known local administrators SID `S-1-5-32-544`, as built by
`AllocateAndInitializeSid(&SIDAuthNT, 2, SECURITY_BUILTIN_DOMAIN_RID,
DOMAIN_ALIAS_RID_ADMINS, 0, ..., 0)`. -/
def adminSid : Sid := [SECURITY_NT_AUTHORITY, SECURITY_BUILTIN_DOMAIN_RID, DOMAIN_ALIAS_RID_ADMINS]

/-- One `EXPLICIT_ACCESS` entry, the fields the source sets. -/
structure ExplicitAccess where
  grfAccessPermissions : Nat
  grfAccessMode : Nat
  grfInheritance : Nat
  trusteeForm : Nat
  trusteeType : Nat
  trusteeSid : Sid
deriving DecidableEq

/-- The security-relevant content of a file's security descriptor:
its owner SID and (optionally) its DACL, an ordered ACE list. -/
structure FileSec where
  owner : Sid
  dacl : Option (List ExplicitAccess)
deriving DecidableEq

/-- Observable events of a run: buffer allocation and release,
privilege enable/disable calls, critical log lines, and calls that write
a security descriptor (`SetNamedSecurityInfo`, by information kind). -/
inductive Event where
  | allocBuf (id : Nat)
  | freeBuf (id : Nat)
  | privilege (name : String) (enable : Bool)
  | logCritical (msg : String)
  | setSecInfo (infoKind : Nat) (path : String)
deriving DecidableEq

/-- The modelled state of the Windows security subsystem.  The three
boolean fields select the failure behaviour of the fallible backend
calls, so runs with backend failures can be quantified over; `garbage`
is the content an uninitialized stack buffer happens to hold. -/
structure WinState where
  files : List (String × FileSec)
  accounts : List (String × Sid)
  sidNames : List (Sid × String)
  privileges : List String
  nextBuf : Nat
  garbage : String
  denyWrites : Bool
  allocSidFails : Bool
  aclBuildFails : Bool
deriving DecidableEq

/-- Association-list lookup used for all the tables of `WinState`. -/
def assq {α β : Type} [DecidableEq α] : List (α × β) → α → Option β
  | [], _ => none
  | (k, v) :: rest, x => if k = x then some v else assq rest x

/-- Model of `GetNamedSecurityInfo(path, SE_FILE_OBJECT,
OWNER_SECURITY_INFORMATION, &ownerSID, ...)`: on success it yields the
owner SID and allocates a security-descriptor buffer the caller must
free with `LocalFree`.  Returns (error code, owner SID, descriptor
buffer id, successor state, events). -/
def getNamedSecurityInfo (s : WinState) (path : String) :
    Nat × Sid × Nat × WinState × List Event :=
  match assq s.files path with
  | some f =>
      (ERROR_SUCCESS, f.owner, s.nextBuf,
       { s with nextBuf := s.nextBuf + 1 }, [Event.allocBuf s.nextBuf])
  | none => (ERROR_FILE_NOT_FOUND, [], 0, s, [])

/-- Model of `LookupAccountSid(nullptr, sid, name, &cchName, ...)`.
The Windows call returns a `BOOL`: nonzero on success (the name was
written into the buffer of capacity `cchName`), and `0` on failure —
including `ERROR_INSUFFICIENT_BUFFER` when the buffer capacity is too
small for the name plus its terminator, in which case nothing usable is
written.  Returns (BOOL result, name written to the buffer if any). -/
def lookupAccountSid (s : WinState) (sid : Sid) (cchName : Nat) :
    Nat × Option String :=
  match assq s.sidNames sid with
  | some n => if n.length + 1 ≤ cchName then (1, some n) else (0, none)
  | none => (0, none)

/-- Model of `LookupAccountName(nullptr, name, sid, &sidLen, ...)` with a
`SECURITY_MAX_SID_SIZE` output buffer (always large enough): succeeds
exactly when the name resolves, yielding its SID. -/
def lookupAccountName (s : WinState) (name : String) : Bool × Sid :=
  match assq s.accounts name with
  | some sid => (true, sid)
  | none => (false, [])

/-- Modelled from the spec: `WindowsCoreFunctions::enablePrivilege`
(the Privilege Scope Guard primitive, whose implementation is not under
src/) enables or disables the named process-wide privilege for the
calling context; each call is recorded as an event. -/
def enablePrivilege (s : WinState) (name : String) (enable : Bool) :
    WinState × List Event :=
  if enable then
    ({ s with privileges := name :: s.privileges }, [Event.privilege name true])
  else
    ({ s with privileges := s.privileges.filter (fun p => p != name) },
     [Event.privilege name false])

/-- Replace the owner field of the descriptor stored for `path`. -/
def updateOwner : List (String × FileSec) → String → Sid → List (String × FileSec)
  | [], _, _ => []
  | (k, v) :: rest, path, sid =>
      (if k = path then (k, { v with owner := sid }) else (k, v)) :: updateOwner rest path sid

/-- Replace the DACL field of the descriptor stored for `path`. -/
def updateDacl : List (String × FileSec) → String → List ExplicitAccess → List (String × FileSec)
  | [], _, _ => []
  | (k, v) :: rest, path, acl =>
      (if k = path then (k, { v with dacl := some acl }) else (k, v)) :: updateDacl rest path acl

/-- Model of `SetNamedSecurityInfo(path, SE_FILE_OBJECT,
OWNER_SECURITY_INFORMATION, sid, nullptr, nullptr, nullptr)`: replaces
the owner of the path's descriptor; fails with `ERROR_ACCESS_DENIED`
when the caller lacks rights and with `ERROR_FILE_NOT_FOUND` when the
path does not exist. -/
def setNamedSecurityInfoOwner (s : WinState) (path : String) (sid : Sid) :
    Nat × WinState × List Event :=
  if s.denyWrites then
    (ERROR_ACCESS_DENIED, s, [Event.setSecInfo OWNER_SECURITY_INFORMATION path])
  else
    match assq s.files path with
    | some _ =>
        (ERROR_SUCCESS, { s with files := updateOwner s.files path sid },
         [Event.setSecInfo OWNER_SECURITY_INFORMATION path])
    | none => (ERROR_FILE_NOT_FOUND, s, [Event.setSecInfo OWNER_SECURITY_INFORMATION path])

/-- Model of `SetNamedSecurityInfo(path, SE_FILE_OBJECT,
DACL_SECURITY_INFORMATION, nullptr, nullptr, acl, nullptr)`: replaces
(never merges) the DACL of the path's descriptor, leaving the owner
untouched; same failure modes as the owner variant. -/
def setNamedSecurityInfoDacl (s : WinState) (path : String) (acl : List ExplicitAccess) :
    Nat × WinState × List Event :=
  if s.denyWrites then
    (ERROR_ACCESS_DENIED, s, [Event.setSecInfo DACL_SECURITY_INFORMATION path])
  else
    match assq s.files path with
    | some _ =>
        (ERROR_SUCCESS, { s with files := updateDacl s.files path acl },
         [Event.setSecInfo DACL_SECURITY_INFORMATION path])
    | none => (ERROR_FILE_NOT_FOUND, s, [Event.setSecInfo DACL_SECURITY_INFORMATION path])

/-- Model of `AllocateAndInitializeSid(&SIDAuthNT, 2,
SECURITY_BUILTIN_DOMAIN_RID, DOMAIN_ALIAS_RID_ADMINS, 0, ..., &adminSID)`:
on success it allocates a SID buffer (to be released with `FreeSid`)
holding the administrators SID.  Returns (BOOL success, SID, buffer id,
successor state, events). -/
def allocateAndInitializeSid (s : WinState) :
    Bool × Sid × Nat × WinState × List Event :=
  if s.allocSidFails then (false, [], 0, s, [])
  else
    (true, adminSid, s.nextBuf,
     { s with nextBuf := s.nextBuf + 1 }, [Event.allocBuf s.nextBuf])

/-- Model of `SetEntriesInAcl(n, ea, nullptr, &acl)`: builds a new ACL
holding exactly the given entries in order (the merge argument is null),
allocating an ACL buffer the caller must release with `LocalFree`.
Returns (error code, ACL, buffer id, successor state, events). -/
def setEntriesInAcl (s : WinState) (ea : List ExplicitAccess) :
    Nat × List ExplicitAccess × Nat × WinState × List Event :=
  if s.aclBuildFails then (ERROR_INVALID_PARAMETER, [], 0, s, [])
  else
    (ERROR_SUCCESS, ea, s.nextBuf,
     { s with nextBuf := s.nextBuf + 1 }, [Event.allocBuf s.nextBuf])

/-- Model of `FreeSid` / `LocalFree`: releases a buffer, recorded as an
event. -/
def freeBuffer (s : WinState) (id : Nat) : WinState × List Event :=
  (s, [Event.freeBuf id])

/-- Shallow embedding of `WindowsFilesystemFunctions::fileOwnerGroup`
(lines 65-92).  Note the source compares the `BOOL` result of
`LookupAccountSid` against `ERROR_SUCCESS` (= 0), and calls it with
`nameSize = 0`; on the success branch it reads the `name` stack buffer,
which holds its uninitialized content when the lookup wrote nothing.
The descriptor buffer allocated by `GetNamedSecurityInfo` is not freed
by the source. -/
def fileOwnerGroup (s : WinState) (filePath : String) :
    String × WinState × List Event :=
  let secInfo := getNamedSecurityInfo s filePath
  let secInfoResult := secInfo.1
  let ownerSID := secInfo.2.1
  let s1 := secInfo.2.2.2.1
  let ev1 := secInfo.2.2.2.2
  if secInfoResult ≠ ERROR_SUCCESS then
    ("", s1, ev1 ++ [Event.logCritical "GetSecurityInfo() failed"])
  else
    let nameSize : Nat := 0
    let lookupSid := lookupAccountSid s1 ownerSID nameSize
    let lookupSidResult := lookupSid.1
    if lookupSidResult ≠ ERROR_SUCCESS then
      ("", s1, ev1 ++ [Event.logCritical "LookupAccountSid() failed"])
    else
      (lookupSid.2.getD s1.garbage, s1, ev1)

/-- Shallow embedding of `WindowsFilesystemFunctions::setFileOwnerGroup`
(lines 96-125): resolve the group name; on failure log and return false;
otherwise enable the take-ownership privilege, attempt the owner write,
disable the privilege, log on failure, and report success. -/
def setFileOwnerGroup (s : WinState) (filePath ownerGroup : String) :
    Bool × WinState × List Event :=
  let lookup := lookupAccountName s ownerGroup
  if lookup.1 = false then
    (false, s, [Event.logCritical "Could not look up SID structure"])
  else
    let enableRes := enablePrivilege s SE_TAKE_OWNERSHIP_NAME true
    let setRes := setNamedSecurityInfoOwner enableRes.1 filePath lookup.2
    let result := setRes.1
    let disableRes := enablePrivilege setRes.2.1 SE_TAKE_OWNERSHIP_NAME false
    let evLog :=
      if result ≠ ERROR_SUCCESS then [Event.logCritical "SetNamedSecurityInfo() failed"]
      else []
    (result == ERROR_SUCCESS, disableRes.1,
     enableRes.2 ++ setRes.2.2 ++ disableRes.2 ++ evLog)

/-- The access mask the source builds for the owner's ACE (lines
156-168): start from 0 and or in `GENERIC_READ` / `GENERIC_WRITE` /
`GENERIC_EXECUTE` exactly when `QFile::ReadGroup` / `WriteGroup` /
`ExeGroup` is present in `permissions`. -/
def ownerAceMask (permissions : Nat) : Nat :=
  let perm0 : Nat := 0
  let perm1 := if Nat.land permissions QFileReadGroup ≠ 0
    then Nat.lor perm0 GENERIC_READ else perm0
  let perm2 := if Nat.land permissions QFileWriteGroup ≠ 0
    then Nat.lor perm1 GENERIC_WRITE else perm1
  if Nat.land permissions QFileExeGroup ≠ 0
    then Nat.lor perm2 GENERIC_EXECUTE else perm2

/-- Shallow embedding of
`WindowsFilesystemFunctions::setFileOwnerGroupPermissions` (lines
129-203): fetch the current owner, build the administrators SID, build a
two-entry ACL (owner entry with the translated permission mask, then an
unconditional full-control entry for administrators), apply it as the
new DACL, log unless the result is `ERROR_ACCESS_DENIED`, free the admin
SID and the ACL, and report success.  The descriptor buffer from
`GetNamedSecurityInfo` is not freed by the source. -/
def setFileOwnerGroupPermissions (s : WinState) (filePath : String) (permissions : Nat) :
    Bool × WinState × List Event :=
  let secInfo := getNamedSecurityInfo s filePath
  let secInfoResult := secInfo.1
  let ownerSID := secInfo.2.1
  let s1 := secInfo.2.2.2.1
  let ev1 := secInfo.2.2.2.2
  if secInfoResult ≠ ERROR_SUCCESS then
    (false, s1, ev1 ++ [Event.logCritical "GetSecurityInfo() failed"])
  else
    let sidAlloc := allocateAndInitializeSid s1
    let sidOk := sidAlloc.1
    let adminSID := sidAlloc.2.1
    let adminBuf := sidAlloc.2.2.1
    let s2 := sidAlloc.2.2.2.1
    let ev2 := sidAlloc.2.2.2.2
    if sidOk = false then
      (false, s2, ev1 ++ ev2)
    else
      let ea0 : ExplicitAccess :=
        ⟨ownerAceMask permissions, SET_ACCESS, NO_INHERITANCE,
         TRUSTEE_IS_SID, TRUSTEE_IS_GROUP, ownerSID⟩
      let ea1 : ExplicitAccess :=
        ⟨GENERIC_ALL, SET_ACCESS, NO_INHERITANCE,
         TRUSTEE_IS_SID, TRUSTEE_IS_GROUP, adminSID⟩
      let aclRes := setEntriesInAcl s2 [ea0, ea1]
      let aclResult := aclRes.1
      let acl := aclRes.2.1
      let aclBuf := aclRes.2.2.1
      let s3 := aclRes.2.2.2.1
      let ev3 := aclRes.2.2.2.2
      if aclResult ≠ ERROR_SUCCESS then
        let freeAdmin := freeBuffer s3 adminBuf
        (false, freeAdmin.1,
         ev1 ++ ev2 ++ ev3 ++ [Event.logCritical "SetEntriesInAcl() failed"] ++ freeAdmin.2)
      else
        let applyRes := setNamedSecurityInfoDacl s3 filePath acl
        let result := applyRes.1
        let s4 := applyRes.2.1
        let ev4 := applyRes.2.2
        let evLog :=
          if result ≠ ERROR_ACCESS_DENIED then [Event.logCritical "SetNamedSecurityInfo() failed"]
          else []
        let freeAdmin := freeBuffer s4 adminBuf
        let freeAcl := freeBuffer freeAdmin.1 aclBuf
        (result == ERROR_SUCCESS, freeAcl.1,
         ev1 ++ ev2 ++ ev3 ++ ev4 ++ evLog ++ freeAdmin.2 ++ freeAcl.2)

/-- Is the event a privilege enable/disable call? -/
def isPrivilegeEvent : Event → Bool
  | Event.privilege _ _ => true
  | _ => false

/-- The subtrace of privilege enable/disable calls. -/
def privilegeTrace (ev : List Event) : List Event :=
  ev.filter isPrivilegeEvent

/-- Is the event a critical log line? -/
def isLogEvent : Event → Bool
  | Event.logCritical _ => true
  | _ => false

/-- Is the event a DACL-writing `SetNamedSecurityInfo` call? -/
def isDaclWriteEvent : Event → Bool
  | Event.setSecInfo k _ => k == DACL_SECURITY_INFORMATION
  | _ => false

/-- How many times buffer `id` is allocated in the trace. -/
def allocCount (ev : List Event) (id : Nat) : Nat :=
  (ev.filter (fun e => e == Event.allocBuf id)).length

/-- How many times buffer `id` is freed in the trace. -/
def freeCount (ev : List Event) (id : Nat) : Nat :=
  (ev.filter (fun e => e == Event.freeBuf id)).length

/-- Every buffer allocated in the trace is freed exactly once. -/
def buffersBalanced (ev : List Event) : Prop :=
  ∀ id, 1 ≤ allocCount ev id → freeCount ev id = 1

/-- The owner SID recorded for a path, if the path exists. -/
def ownerOf (s : WinState) (path : String) : Option Sid :=
  (assq s.files path).map FileSec.owner

/-- A concrete owner SID used in test states. -/
def aliceSid : Sid := [5, 21, 1001]

/-- A concrete security descriptor owned by `aliceSid`. -/
def testFile : FileSec := { owner := aliceSid, dacl := none }

/-- A concrete path used in test states. -/
def testPath : String := "C:\\data\\report.xlsx"

/-- A concrete system state: one file owned by Alice, resolvable account
tables, no privileges enabled, no backend failures. -/
def testState : WinState :=
  { files := [(testPath, testFile)]
  , accounts := [("Alice", aliceSid)]
  , sidNames := [(aliceSid, "Alice")]
  , privileges := []
  , nextBuf := 0
  , garbage := "UNINIT"
  , denyWrites := false
  , allocSidFails := false
  , aclBuildFails := false }

/-- Claim C1: the claimed set/get round-trip fails on the code.  On a
state where the path exists and the group name resolves,
`setFileOwnerGroup` succeeds, yet the following `fileOwnerGroup` returns
the uninitialized stack buffer's contents — `LookupAccountSid` is called
with a zero-sized buffer and its `BOOL` result is compared against
`ERROR_SUCCESS`, so its failure is taken as success — and not the name
just set (nor any normalization of it). -/
theorem claim1_setThenGet_loses_name :
    (setFileOwnerGroup testState testPath "Alice").1 = true ∧
    (fileOwnerGroup (setFileOwnerGroup testState testPath "Alice").2.1 testPath).1
      = "UNINIT" ∧
    (fileOwnerGroup (setFileOwnerGroup testState testPath "Alice").2.1 testPath).1
      ≠ "Alice" := by
  decide

/-- Claim C5: violated by the code.  On a state where the owner SID is
resolvable, the reverse lookup fails (`BOOL` result 0: the fixed buffer
is passed with size 0, the buffer-too-small case), yet `fileOwnerGroup`
returns the uninitialized buffer contents with no failure indication and
no diagnostic, because the failed `BOOL` equals `ERROR_SUCCESS`. -/
theorem claim5_lookup_failure_returns_garbage :
    (lookupAccountSid testState aliceSid 0).1 = 0 ∧
    (fileOwnerGroup testState testPath).1 = testState.garbage ∧
    (fileOwnerGroup testState testPath).2.2.filter isLogEvent = [] := by
  decide

/-- Claim C6: violated by the code.  When the DACL apply succeeds
(`ERROR_SUCCESS`), `setFileOwnerGroupPermissions` returns true and still
emits the "SetNamedSecurityInfo() failed" diagnostic, because the source
logs whenever the result differs from `ERROR_ACCESS_DENIED`, including
on success. -/
theorem claim6_diagnostic_emitted_on_success :
    (setFileOwnerGroupPermissions testState testPath 0).1 = true ∧
    Event.logCritical "SetNamedSecurityInfo() failed"
      ∈ (setFileOwnerGroupPermissions testState testPath 0).2.2 := by
  decide

/-- Claim C7: violated by the code.  The security-descriptor buffer
allocated by `GetNamedSecurityInfo` (buffer id 0 in these runs) is never
freed, neither by `fileOwnerGroup` nor by
`setFileOwnerGroupPermissions`, so the alloc/free balance fails. -/
theorem claim7_descriptor_buffer_leaked :
    ¬ buffersBalanced (fileOwnerGroup testState testPath).2.2 ∧
    ¬ buffersBalanced (setFileOwnerGroupPermissions testState testPath 0).2.2 := by
  constructor
  · intro h
    exact absurd (h 0 (by decide)) (by decide)
  · intro h
    exact absurd (h 0 (by decide)) (by decide)

/-- Claim C4: for every state in which the group name does not resolve,
`setFileOwnerGroup` returns false, leaves the state untouched (so the
owner observed via `fileOwnerGroup` is unchanged), and never enables any
privilege. -/
theorem claim4_unresolvable_group_no_mutation (s : WinState) (filePath ownerGroup : String)
    (h : assq s.accounts ownerGroup = none) :
    (setFileOwnerGroup s filePath ownerGroup).1 = false ∧
    (setFileOwnerGroup s filePath ownerGroup).2.1 = s ∧
    privilegeTrace (setFileOwnerGroup s filePath ownerGroup).2.2 = [] ∧
    (fileOwnerGroup (setFileOwnerGroup s filePath ownerGroup).2.1 filePath).1
      = (fileOwnerGroup s filePath).1 := by
  simp [setFileOwnerGroup, lookupAccountName, h, privilegeTrace, isPrivilegeEvent,
    List.filter]

/-- Witness for claim C4 at a concrete state and unresolvable name. -/
theorem claim4_witness :
    (setFileOwnerGroup testState testPath "NoSuchUser").1 = false ∧
    (setFileOwnerGroup testState testPath "NoSuchUser").2.1 = testState ∧
    privilegeTrace (setFileOwnerGroup testState testPath "NoSuchUser").2.2 = [] ∧
    (fileOwnerGroup (setFileOwnerGroup testState testPath "NoSuchUser").2.1 testPath).1
      = (fileOwnerGroup testState testPath).1 :=
  claim4_unresolvable_group_no_mutation testState testPath "NoSuchUser" (by decide)

lemma setNamedSecurityInfoOwner_events (s : WinState) (path : String) (sid : Sid) :
    (setNamedSecurityInfoOwner s path sid).2.2
      = [Event.setSecInfo OWNER_SECURITY_INFORMATION path] := by
  unfold setNamedSecurityInfoOwner
  split
  · rfl
  · split <;> rfl

lemma setNamedSecurityInfoOwner_privileges (s : WinState) (path : String) (sid : Sid) :
    (setNamedSecurityInfoOwner s path sid).2.1.privileges = s.privileges := by
  unfold setNamedSecurityInfoOwner
  split
  · rfl
  · split <;> rfl

/-- Claim C3: in every run of `setFileOwnerGroup`, the privilege calls
in the trace are either absent (resolution failed before the bracket) or
exactly one enable of the take-ownership privilege followed immediately
by its disable — the disable happens whether or not the bracketed owner
write succeeded — and the resulting privilege set never retains the
take-ownership privilege beyond what the initial state already held. -/
theorem claim3_privilege_enable_disable_paired (s : WinState) (filePath ownerGroup : String) :
    (privilegeTrace (setFileOwnerGroup s filePath ownerGroup).2.2 = [] ∨
     privilegeTrace (setFileOwnerGroup s filePath ownerGroup).2.2 =
       [Event.privilege SE_TAKE_OWNERSHIP_NAME true,
        Event.privilege SE_TAKE_OWNERSHIP_NAME false]) ∧
    ((setFileOwnerGroup s filePath ownerGroup).2.1.privileges = s.privileges ∨
     (setFileOwnerGroup s filePath ownerGroup).2.1.privileges
       = s.privileges.filter (fun p => p != SE_TAKE_OWNERSHIP_NAME)) := by
  by_cases h : (lookupAccountName s ownerGroup).1 = false
  · constructor
    · left
      simp [setFileOwnerGroup, h, privilegeTrace, isPrivilegeEvent, List.filter]
    · left
      simp [setFileOwnerGroup, h]
  · constructor
    · right
      simp only [setFileOwnerGroup, h, if_false]
      simp [enablePrivilege, setNamedSecurityInfoOwner_events, privilegeTrace,
        List.filter_append, isPrivilegeEvent, List.filter]
    · right
      simp only [setFileOwnerGroup, h, if_false]
      simp [enablePrivilege, setNamedSecurityInfoOwner_privileges, List.filter]

lemma assq_updateDacl (files : List (String × FileSec)) (path q : String)
    (acl : List ExplicitAccess) :
    assq (updateDacl files path acl) q
      = if q = path then (assq files q).map (fun f => { f with dacl := some acl })
        else assq files q := by
  induction files with
  | nil => simp [updateDacl, assq]
  | cons pr rest ih =>
    obtain ⟨k, v⟩ := pr
    rw [updateDacl]
    by_cases hk : k = path
    · subst hk
      rw [if_pos rfl]
      by_cases hq : k = q
      · subst hq
        simp [assq]
      · have hq' : ¬(q = k) := fun hh => hq hh.symm
        simp [assq, hq, hq', ih]
    · rw [if_neg hk]
      by_cases hq : k = q
      · subst hq
        simp [assq, hk]
      · have hq' : ¬(q = k) := fun hh => hq hh.symm
        simp [assq, hk, hq, hq', ih]

@[simp]
lemma assq_updateDacl_owner (files : List (String × FileSec)) (path q : String)
    (acl : List ExplicitAccess) :
    (assq (updateDacl files path acl) q).map FileSec.owner
      = (assq files q).map FileSec.owner := by
  rw [assq_updateDacl]
  split
  · cases assq files q <;> rfl
  · rfl

/-- The ACE shape both entries of the source's `EXPLICIT_ACCESS` array
share: grant mode (`SET_ACCESS`), no inheritance, trustee given as a SID
of group type. -/
def grantAce (mask : Nat) (sid : Sid) : ExplicitAccess :=
  { grfAccessPermissions := mask, grfAccessMode := SET_ACCESS,
    grfInheritance := NO_INHERITANCE, trusteeForm := TRUSTEE_IS_SID,
    trusteeType := TRUSTEE_IS_GROUP, trusteeSid := sid }

/-- The two-entry ACL the source hands to `SetEntriesInAcl`: the current
owner's entry with the translated permission mask first, then the
unconditional full-control entry for the administrators group. -/
def builtAcl (perms : Nat) (ownerSID : Sid) : List ExplicitAccess :=
  [grantAce (ownerAceMask perms) ownerSID, grantAce GENERIC_ALL adminSid]

lemma spgp_dacl (s : WinState) (path : String) (perms : Nat) (f : FileSec)
    (hf : assq s.files path = some f)
    (hsid : s.allocSidFails = false)
    (hacl : s.aclBuildFails = false)
    (hw : s.denyWrites = false) :
    assq (setFileOwnerGroupPermissions s path perms).2.1.files path =
      some { f with dacl := some (builtAcl perms f.owner) } := by
  simp [setFileOwnerGroupPermissions, getNamedSecurityInfo, hf, allocateAndInitializeSid,
    hsid, setEntriesInAcl, hacl, setNamedSecurityInfoDacl, hw, freeBuffer, grantAce, builtAcl,
    ERROR_SUCCESS, ERROR_FILE_NOT_FOUND, ERROR_ACCESS_DENIED, assq_updateDacl, hf]

lemma spgp_fields (s : WinState) (path : String) (perms : Nat) :
    (setFileOwnerGroupPermissions s path perms).2.1.garbage = s.garbage ∧
    (setFileOwnerGroupPermissions s path perms).2.1.sidNames = s.sidNames ∧
    ∀ q, (assq (setFileOwnerGroupPermissions s path perms).2.1.files q).map FileSec.owner
        = (assq s.files q).map FileSec.owner := by
  cases hf : assq s.files path with
  | none =>
      simp [setFileOwnerGroupPermissions, getNamedSecurityInfo, hf,
        ERROR_SUCCESS, ERROR_FILE_NOT_FOUND]
  | some f =>
      by_cases hsid : s.allocSidFails
      · simp [setFileOwnerGroupPermissions, getNamedSecurityInfo, hf,
          allocateAndInitializeSid, hsid, ERROR_SUCCESS]
      · by_cases hacl : s.aclBuildFails
        · simp [setFileOwnerGroupPermissions, getNamedSecurityInfo, hf,
            allocateAndInitializeSid, hsid, setEntriesInAcl, hacl, freeBuffer,
            ERROR_SUCCESS, ERROR_INVALID_PARAMETER]
        · by_cases hw : s.denyWrites
          · simp [setFileOwnerGroupPermissions, getNamedSecurityInfo, hf,
              allocateAndInitializeSid, hsid, setEntriesInAcl, hacl,
              setNamedSecurityInfoDacl, hw, freeBuffer,
              ERROR_SUCCESS, ERROR_ACCESS_DENIED]
          · simp [setFileOwnerGroupPermissions, getNamedSecurityInfo, hf,
              allocateAndInitializeSid, hsid, setEntriesInAcl, hacl,
              setNamedSecurityInfoDacl, hw, freeBuffer,
              ERROR_SUCCESS, ERROR_ACCESS_DENIED]

lemma ownerAceMask_zero : ownerAceMask 0 = 0 := by decide

lemma ownerAceMask_read (perms : Nat) :
    Nat.land (ownerAceMask perms) GENERIC_READ ≠ 0 ↔ Nat.land perms QFileReadGroup ≠ 0 := by
  unfold ownerAceMask
  by_cases h1 : Nat.land perms QFileReadGroup ≠ 0 <;>
    by_cases h2 : Nat.land perms QFileWriteGroup ≠ 0 <;>
      by_cases h3 : Nat.land perms QFileExeGroup ≠ 0 <;>
        simp [h1, h2, h3] <;> decide

lemma ownerAceMask_write (perms : Nat) :
    Nat.land (ownerAceMask perms) GENERIC_WRITE ≠ 0 ↔ Nat.land perms QFileWriteGroup ≠ 0 := by
  unfold ownerAceMask
  by_cases h1 : Nat.land perms QFileReadGroup ≠ 0 <;>
    by_cases h2 : Nat.land perms QFileWriteGroup ≠ 0 <;>
      by_cases h3 : Nat.land perms QFileExeGroup ≠ 0 <;>
        simp [h1, h2, h3] <;> decide

lemma ownerAceMask_exec (perms : Nat) :
    Nat.land (ownerAceMask perms) GENERIC_EXECUTE ≠ 0 ↔ Nat.land perms QFileExeGroup ≠ 0 := by
  unfold ownerAceMask
  by_cases h1 : Nat.land perms QFileReadGroup ≠ 0 <;>
    by_cases h2 : Nat.land perms QFileWriteGroup ≠ 0 <;>
      by_cases h3 : Nat.land perms QFileExeGroup ≠ 0 <;>
        simp [h1, h2, h3] <;> decide

/-- Claim C2: whenever `setFileOwnerGroupPermissions` reaches the DACL
apply and it succeeds, the path's DACL afterwards is exactly the
two-entry grant list the function constructed — the current owner's
entry first, then the unconditional full-control entry for the
well-known local administrators group — independently of the prior DACL
and of the permission set (the mask is existentially abstracted; the
admin entry carries `GENERIC_ALL` for every permission set, the empty
one included). -/
theorem claim2_acl_two_fixed_entries (s : WinState) (path : String) (perms : Nat) (f : FileSec)
    (hf : assq s.files path = some f)
    (hsid : s.allocSidFails = false)
    (hacl : s.aclBuildFails = false)
    (hw : s.denyWrites = false) :
    ∃ mask, assq (setFileOwnerGroupPermissions s path perms).2.1.files path =
      some { owner := f.owner, dacl := some [grantAce mask f.owner, grantAce GENERIC_ALL adminSid] } := by
  refine ⟨ownerAceMask perms, ?_⟩
  rw [spgp_dacl s path perms f hf hsid hacl hw]
  rfl

/-- Witness for claim C2 at a concrete state and permission set. -/
theorem claim2_witness :
    ∃ mask, assq (setFileOwnerGroupPermissions testState testPath QFileReadGroup).2.1.files testPath =
      some { owner := testFile.owner, dacl := some [grantAce mask testFile.owner, grantAce GENERIC_ALL adminSid] } :=
  claim2_acl_two_fixed_entries testState testPath QFileReadGroup testFile (by decide) rfl rfl rfl

/-- Claim C8: in every successful run, the first (owner/group) ACE of
the applied DACL carries a mask to which read, write and execute each
contribute their generic flag exactly when present in the input
permission set, and which is exactly zero for the empty permission
set. -/
theorem claim8_group_ace_mask (s : WinState) (path : String) (perms : Nat) (f : FileSec)
    (hf : assq s.files path = some f)
    (hsid : s.allocSidFails = false)
    (hacl : s.aclBuildFails = false)
    (hw : s.denyWrites = false) :
    ∃ a rest,
      (assq (setFileOwnerGroupPermissions s path perms).2.1.files path).bind FileSec.dacl
        = some (a :: rest) ∧
      (perms = 0 → a.grfAccessPermissions = 0) ∧
      (Nat.land a.grfAccessPermissions GENERIC_READ ≠ 0 ↔ Nat.land perms QFileReadGroup ≠ 0) ∧
      (Nat.land a.grfAccessPermissions GENERIC_WRITE ≠ 0 ↔ Nat.land perms QFileWriteGroup ≠ 0) ∧
      (Nat.land a.grfAccessPermissions GENERIC_EXECUTE ≠ 0 ↔ Nat.land perms QFileExeGroup ≠ 0) := by
  refine ⟨grantAce (ownerAceMask perms) f.owner, [grantAce GENERIC_ALL adminSid],
    ?_, ?_, ownerAceMask_read perms, ownerAceMask_write perms, ownerAceMask_exec perms⟩
  · rw [spgp_dacl s path perms f hf hsid hacl hw]
    rfl
  · intro h0
    subst h0
    exact ownerAceMask_zero

/-- Witness for claim C8 at a concrete state and the empty permission
set. -/
theorem claim8_witness :
    ∃ a rest,
      (assq (setFileOwnerGroupPermissions testState testPath 0).2.1.files testPath).bind FileSec.dacl
        = some (a :: rest) ∧
      ((0 : Nat) = 0 → a.grfAccessPermissions = 0) ∧
      (Nat.land a.grfAccessPermissions GENERIC_READ ≠ 0 ↔ Nat.land 0 QFileReadGroup ≠ 0) ∧
      (Nat.land a.grfAccessPermissions GENERIC_WRITE ≠ 0 ↔ Nat.land 0 QFileWriteGroup ≠ 0) ∧
      (Nat.land a.grfAccessPermissions GENERIC_EXECUTE ≠ 0 ↔ Nat.land 0 QFileExeGroup ≠ 0) :=
  claim8_group_ace_mask testState testPath 0 testFile (by decide) rfl rfl rfl

lemma fileOwnerGroup_fst (s : WinState) (path : String) :
    (fileOwnerGroup s path).1 = (if (assq s.files path).isSome then s.garbage else "") := by
  cases hf : assq s.files path with
  | none =>
      simp [fileOwnerGroup, getNamedSecurityInfo, hf, ERROR_SUCCESS, ERROR_FILE_NOT_FOUND]
  | some f =>
      cases hn : assq s.sidNames f.owner with
      | none =>
          simp [fileOwnerGroup, getNamedSecurityInfo, hf, lookupAccountSid, hn, ERROR_SUCCESS]
      | some n =>
          simp [fileOwnerGroup, getNamedSecurityInfo, hf, lookupAccountSid, hn, ERROR_SUCCESS]

/-- Claim C9: `setFileOwnerGroupPermissions` only ever rewrites the DACL
part of a descriptor: for every state, path and permission set, the
owner recorded for the path is the same before and after the call, and
`fileOwnerGroup` returns the same name before and after. -/
theorem claim9_owner_unchanged_by_permissions (s : WinState) (path : String) (perms : Nat) :
    ownerOf (setFileOwnerGroupPermissions s path perms).2.1 path = ownerOf s path ∧
    (fileOwnerGroup (setFileOwnerGroupPermissions s path perms).2.1 path).1
      = (fileOwnerGroup s path).1 := by
  obtain ⟨hg, _, hown⟩ := spgp_fields s path perms
  refine ⟨?_, ?_⟩
  · simpa [ownerOf] using hown path
  · rw [fileOwnerGroup_fst, fileOwnerGroup_fst, hg]
    have h := hown path
    cases h1 : assq (setFileOwnerGroupPermissions s path perms).2.1.files path <;>
      cases h2 : assq s.files path <;> rw [h1, h2] at h <;> simp_all

/-- Claim C10: if descriptor retrieval, administrators-SID construction
or ACL construction fails, `setFileOwnerGroupPermissions` returns false,
never issues the DACL-writing backend call, and leaves the file table
unchanged. -/
theorem claim10_early_failure_no_dacl_write (s : WinState) (path : String) (perms : Nat)
    (h : assq s.files path = none ∨ s.allocSidFails = true ∨ s.aclBuildFails = true) :
    (setFileOwnerGroupPermissions s path perms).1 = false ∧
    (setFileOwnerGroupPermissions s path perms).2.2.filter isDaclWriteEvent = [] ∧
    (setFileOwnerGroupPermissions s path perms).2.1.files = s.files := by
  rcases h with h | h | h
  · simp [setFileOwnerGroupPermissions, getNamedSecurityInfo, h, isDaclWriteEvent,
      List.filter, ERROR_SUCCESS, ERROR_FILE_NOT_FOUND]
  · cases hf : assq s.files path <;>
      simp [setFileOwnerGroupPermissions, getNamedSecurityInfo, hf, allocateAndInitializeSid,
        h, isDaclWriteEvent, List.filter, ERROR_SUCCESS, ERROR_FILE_NOT_FOUND]
  · cases hf : assq s.files path <;> by_cases hsid : s.allocSidFails <;>
      simp [setFileOwnerGroupPermissions, getNamedSecurityInfo, hf, allocateAndInitializeSid,
        hsid, setEntriesInAcl, h, freeBuffer, isDaclWriteEvent, List.filter,
        ERROR_SUCCESS, ERROR_FILE_NOT_FOUND, ERROR_INVALID_PARAMETER]

/-- Witness for claim C10 at a concrete state whose ACL builder fails. -/
theorem claim10_witness :
    (setFileOwnerGroupPermissions { testState with aclBuildFails := true } testPath 0).1 = false ∧
    (setFileOwnerGroupPermissions { testState with aclBuildFails := true } testPath 0).2.2.filter isDaclWriteEvent = [] ∧
    (setFileOwnerGroupPermissions { testState with aclBuildFails := true } testPath 0).2.1.files
      = ({ testState with aclBuildFails := true } : WinState).files :=
  claim10_early_failure_no_dacl_write { testState with aclBuildFails := true } testPath 0
    (Or.inr (Or.inr rfl))

end Veyon
